import Mathlib

/-!
Shallow embedding of `pytorch_generative/models/gated_pixel_cnn.py`.

A feature map ("NCHW tensor") is a shape `(n, c, h, w)` together with a total
data function on indices; every operation reads its input only through the
padding guard, exactly as the zero-padded PyTorch convolutions do.  The scalar
type is an ordered commutative ring so the development can be instantiated both
at `ℚ`/`ℤ` (for concrete evaluation) and at `ℝ` (for the range facts about the
sigmoid head).  The nonlinearities `tanh` and `sigmoid` are passed to each
forward function as explicit function parameters, mirroring `torch.tanh`,
`torch.sigmoid`, `nn.ReLU` and `nn.Sigmoid`.
-/

section Model

variable {α : Type} [LinearOrderedCommRing α]

/-- An NCHW feature map: shape fields plus a total data function
`batch → channel → row → column → α`.  Reads outside the shape are guarded by
the consumers (zero padding), matching PyTorch semantics. -/
structure Tensor4 (α : Type) where
  n : ℕ
  c : ℕ
  h : ℕ
  w : ℕ
  data : ℕ → ℕ → ℕ → ℕ → α

/-- A 5-dimensional tensor, the result of `.view((n, out_dim, c, h, w))` in
`GatedPixelCNN.forward`. -/
structure Tensor5 (α : Type) where
  n : ℕ
  d : ℕ
  c : ℕ
  h : ℕ
  w : ℕ
  data : ℕ → ℕ → ℕ → ℕ → ℕ → α

/-- One `nn.Conv2d(in_channels, out_channels, kernel_size=(kh, kw),
padding=(ph, pw))` with its weight `[outC][inC][kh][kw]` and bias `[outC]`,
stride 1. -/
structure Conv2d (α : Type) where
  inC : ℕ
  outC : ℕ
  kh : ℕ
  kw : ℕ
  ph : ℕ
  pw : ℕ
  weight : ℕ → ℕ → ℕ → ℕ → α
  bias : ℕ → α

/-- Value of the zero-padded input at padded coordinates `(i, j)`:
`t.data` shifted by `(ph, pw)`, `0` outside the `h × w` extent. -/
def paddedAt (t : Tensor4 α) (ph pw n c i j : ℕ) : α :=
  if ph ≤ i ∧ i < ph + t.h ∧ pw ≤ j ∧ j < pw + t.w then
    t.data n c (i - ph) (j - pw)
  else 0

/-- Stride-1 2D cross-correlation with zero padding, PyTorch `Conv2d.forward`:
output extent `(h + 2 ph − kh + 1, w + 2 pw − kw + 1)`, each output entry a
bias plus the windowed weighted sum over input channels. -/
def Conv2d.apply (p : Conv2d α) (t : Tensor4 α) : Tensor4 α where
  n := t.n
  c := p.outC
  h := t.h + 2 * p.ph + 1 - p.kh
  w := t.w + 2 * p.pw + 1 - p.kw
  data := fun n oc i j =>
    p.bias oc +
      ∑ ic ∈ Finset.range p.inC, ∑ a ∈ Finset.range p.kh, ∑ b ∈ Finset.range p.kw,
        p.weight oc ic a b * paddedAt t p.ph p.pw n ic (i + a) (j + b)

/-- Python slicing `[:, :, :h, :]`: keep the first `h` rows (shape-only). -/
def Tensor4.cropH (t : Tensor4 α) (h : ℕ) : Tensor4 α :=
  { t with h := min t.h h }

/-- Python slicing `[:, :, :, :w]`: keep the first `w` columns (shape-only). -/
def Tensor4.cropW (t : Tensor4 α) (w : ℕ) : Tensor4 α :=
  { t with w := min t.w w }

/-- Python slicing `[:, lo:hi, :, :]` along the channel axis. -/
def Tensor4.sliceC (t : Tensor4 α) (lo hi : ℕ) : Tensor4 α :=
  { t with c := min hi t.c - lo, data := fun n ch i j => t.data n (lo + ch) i j }

/-- Elementwise application of a scalar function (`torch.tanh`,
`torch.sigmoid`, `nn.ReLU`, `nn.Sigmoid`). -/
def Tensor4.map (f : α → α) (t : Tensor4 α) : Tensor4 α :=
  { t with data := fun n ch i j => f (t.data n ch i j) }

/-- Elementwise tensor addition (`+`/`+=` on same-shape tensors); the shape is
the left operand's. -/
def tAdd (s t : Tensor4 α) : Tensor4 α :=
  { s with data := fun n ch i j => s.data n ch i j + t.data n ch i j }

/-- Elementwise tensor multiplication (`*` on same-shape tensors); the shape is
the left operand's. -/
def tMul (s t : Tensor4 α) : Tensor4 α :=
  { s with data := fun n ch i j => s.data n ch i j * t.data n ch i j }

/-- Body of `GatedActivation.forward` after the even-channel assertion:
`tanh(x[:, :c//2]) * sigmoid(x[:, c//2:])`. -/
def gatedCore (t s : α → α) (x : Tensor4 α) : Tensor4 α :=
  tMul ((x.sliceC 0 (x.c / 2)).map t) ((x.sliceC (x.c / 2) x.c).map s)

/-- Embedding of `GatedActivation.forward` (source lines 31–35): asserts the
channel count is even, then gates the two channel halves.  The assertion
failure is `none`. -/
def GatedActivation.forward (t s : α → α) (x : Tensor4 α) : Option (Tensor4 α) :=
  if x.c % 2 = 0 then some (gatedCore t s x) else none

/-- Weights and biases of the seven `nn.Conv2d` submodules a
`GatedPixelCNNLayer` owns. -/
structure LayerWeights (α : Type) where
  vstack_1xN_w : ℕ → ℕ → ℕ → ℕ → α
  vstack_1xN_b : ℕ → α
  vstack_Nx1_w : ℕ → ℕ → ℕ → ℕ → α
  vstack_Nx1_b : ℕ → α
  vstack_1x1_w : ℕ → ℕ → ℕ → ℕ → α
  vstack_1x1_b : ℕ → α
  link_w : ℕ → ℕ → ℕ → ℕ → α
  link_b : ℕ → α
  hstack_1xN_w : ℕ → ℕ → ℕ → ℕ → α
  hstack_1xN_b : ℕ → α
  hstack_residual_w : ℕ → ℕ → ℕ → ℕ → α
  hstack_residual_b : ℕ → α
  hstack_skip_w : ℕ → ℕ → ℕ → ℕ → α
  hstack_skip_b : ℕ → α

/-- A constructed `GatedPixelCNNLayer`: the `__init__` arguments plus the
parameters of its convolutions. -/
structure GatedPixelCNNLayer (α : Type) where
  in_channels : ℕ
  out_channels : ℕ
  kernel_size : ℕ
  is_causal : Bool
  weights : LayerWeights α

/-- Embedding of `GatedPixelCNNLayer.__init__` (source lines 48–98): the
constructor asserts `kernel_size % 2 == 1` and otherwise records its
arguments; `none` is the assertion failure. -/
def GatedPixelCNNLayer.init (in_channels out_channels kernel_size : ℕ)
    (is_causal : Bool) (ws : LayerWeights α) : Option (GatedPixelCNNLayer α) :=
  if kernel_size % 2 = 1 then
    some ⟨in_channels, out_channels, kernel_size, is_causal, ws⟩
  else none

/-- `self._padding = (kernel_size - 1) // 2` (source line 68). -/
def GatedPixelCNNLayer.padding (l : GatedPixelCNNLayer α) : ℕ :=
  (l.kernel_size - 1) / 2

/-- `self._vstack_1xN`: kernel `(1, kernel_size)`, padding `(0, padding)`
(source lines 72–75). -/
def GatedPixelCNNLayer.vstack_1xN (l : GatedPixelCNNLayer α) : Conv2d α :=
  ⟨l.in_channels, l.out_channels, 1, l.kernel_size, 0, l.padding,
    l.weights.vstack_1xN_w, l.weights.vstack_1xN_b⟩

/-- `self._vstack_Nx1`: kernel `(kernel_size//2 + 1, 1)`, padding
`(padding + 1, 0)`, doubled output channels (source lines 80–83). -/
def GatedPixelCNNLayer.vstack_Nx1 (l : GatedPixelCNNLayer α) : Conv2d α :=
  ⟨l.out_channels, 2 * l.out_channels, l.kernel_size / 2 + 1, 1, l.padding + 1, 0,
    l.weights.vstack_Nx1_w, l.weights.vstack_Nx1_b⟩

/-- `self._vstack_1x1`: 1×1, `in_channels → 2 out_channels` (source lines
84–85). -/
def GatedPixelCNNLayer.vstack_1x1 (l : GatedPixelCNNLayer α) : Conv2d α :=
  ⟨l.in_channels, 2 * l.out_channels, 1, 1, 0, 0,
    l.weights.vstack_1x1_w, l.weights.vstack_1x1_b⟩

/-- `self._link`: 1×1, `2 out_channels → 2 out_channels` (source lines
87–88). -/
def GatedPixelCNNLayer.link (l : GatedPixelCNNLayer α) : Conv2d α :=
  ⟨2 * l.out_channels, 2 * l.out_channels, 1, 1, 0, 0,
    l.weights.link_w, l.weights.link_b⟩

/-- `self._hstack_1xN`: kernel `(1, kernel_size//2 + 1)`, padding
`(0, padding + int(is_causal))` (source lines 91–94). -/
def GatedPixelCNNLayer.hstack_1xN (l : GatedPixelCNNLayer α) : Conv2d α :=
  ⟨l.in_channels, 2 * l.out_channels, 1, l.kernel_size / 2 + 1, 0,
    l.padding + (if l.is_causal then 1 else 0),
    l.weights.hstack_1xN_w, l.weights.hstack_1xN_b⟩

/-- `self._hstack_residual`: 1×1, `out_channels → out_channels` (source lines
95–96). -/
def GatedPixelCNNLayer.hstack_residual (l : GatedPixelCNNLayer α) : Conv2d α :=
  ⟨l.out_channels, l.out_channels, 1, 1, 0, 0,
    l.weights.hstack_residual_w, l.weights.hstack_residual_b⟩

/-- `self._hstack_skip`: 1×1, `out_channels → out_channels` (source lines
97–98). -/
def GatedPixelCNNLayer.hstack_skip (l : GatedPixelCNNLayer α) : Conv2d α :=
  ⟨l.out_channels, l.out_channels, 1, 1, 0, 0,
    l.weights.hstack_skip_w, l.weights.hstack_skip_b⟩

/-- Source line 114: `vstack = self._vstack_Nx1(self._vstack_1xN(vstack_input))[:, :, :h, :]`
with `h` the height of `vstack_input`. -/
def vstackPre (l : GatedPixelCNNLayer α) (vin : Tensor4 α) : Tensor4 α :=
  (l.vstack_Nx1.apply (l.vstack_1xN.apply vin)).cropH vin.h

/-- Source line 115: `link = self._link(vstack)`.  Note this reads the cropped
vertical-stack convolution output of line 114, before line 116 adds the
`vstack_1x1` shortcut to it. -/
def linkOut (l : GatedPixelCNNLayer α) (vin : Tensor4 α) : Tensor4 α :=
  l.link.apply (vstackPre l vin)

/-- Source line 116: `vstack += self._vstack_1x1(vstack_input)` — the value of
`vstack` after the in-place addition, i.e. the tensor line 117 gates. -/
def vstackSum (l : GatedPixelCNNLayer α) (vin : Tensor4 α) : Tensor4 α :=
  tAdd (vstackPre l vin) (l.vstack_1x1.apply vin)

/-- Source line 120: `hstack = link + self._hstack_1xN(hstack_input)[:, :, :, :w]`
with `w` the width of `vstack_input` — the horizontal stack just before
gating. -/
def hstackPreGate (l : GatedPixelCNNLayer α) (vin hin : Tensor4 α) : Tensor4 α :=
  tAdd (linkOut l vin) ((l.hstack_1xN.apply hin).cropW vin.w)

/-- The vertical-stack output of `GatedPixelCNNLayer.forward` (line 117):
the gated activation of `vstackSum`. -/
def vstackOut (l : GatedPixelCNNLayer α) (t s : α → α) (vin : Tensor4 α) : Tensor4 α :=
  gatedCore t s (vstackSum l vin)

/-- The gated horizontal stack of `GatedPixelCNNLayer.forward` (line 121). -/
def hstackGated (l : GatedPixelCNNLayer α) (t s : α → α) (vin hin : Tensor4 α) : Tensor4 α :=
  gatedCore t s (hstackPreGate l vin hin)

/-- The skip output of `GatedPixelCNNLayer.forward` (line 122):
`skip = self._hstack_skip(hstack)`. -/
def skipOut (l : GatedPixelCNNLayer α) (t s : α → α) (vin hin : Tensor4 α) : Tensor4 α :=
  l.hstack_skip.apply (hstackGated l t s vin hin)

/-- The horizontal-stack output of `GatedPixelCNNLayer.forward` (lines
123–127): the residual 1×1 projection, plus `hstack_input` exactly when the
layer is not causal. -/
def hstackOut (l : GatedPixelCNNLayer α) (t s : α → α) (vin hin : Tensor4 α) : Tensor4 α :=
  if l.is_causal then l.hstack_residual.apply (hstackGated l t s vin hin)
  else tAdd (l.hstack_residual.apply (hstackGated l t s vin hin)) hin

/-- Embedding of `GatedPixelCNNLayer.forward` (source lines 100–129), with
`t`/`s` the `torch.tanh`/`torch.sigmoid` used by `self._activation`.  The two
`GatedActivation` calls keep their assertion, so the result is an `Option`
triple `(vstack, hstack, skip)`. -/
def GatedPixelCNNLayer.forward (l : GatedPixelCNNLayer α) (t s : α → α)
    (vin hin : Tensor4 α) : Option (Tensor4 α × Tensor4 α × Tensor4 α) := do
  let vstack ← GatedActivation.forward t s (vstackSum l vin)
  let hstackG ← GatedActivation.forward t s (hstackPreGate l vin hin)
  let skip := l.hstack_skip.apply hstackG
  let hstackR := l.hstack_residual.apply hstackG
  return (vstack, if l.is_causal then hstackR else tAdd hstackR hin, skip)

/-- Both gating calls inside the layer act on `2 * out_channels` channels, so
`forward` always succeeds, with the components named above. -/
theorem GatedPixelCNNLayer.forward_eq (l : GatedPixelCNNLayer α) (t s : α → α)
    (vin hin : Tensor4 α) :
    l.forward t s vin hin =
      some (vstackOut l t s vin, hstackOut l t s vin hin, skipOut l t s vin hin) := by
  have hv : (vstackSum l vin).c = 2 * l.out_channels := rfl
  have hh : (hstackPreGate l vin hin).c = 2 * l.out_channels := rfl
  simp [GatedPixelCNNLayer.forward, GatedActivation.forward, hv, hh,
    Nat.mul_mod_right, vstackOut, hstackOut, skipOut, hstackGated]

/-- A constructed `GatedPixelCNN` model: the `__init__` arguments, the causal
input layer, the list of non-causal gated layers, and the two 1×1
convolutions of the head (whose `ReLU`/`Sigmoid` stages carry no
parameters). -/
structure GatedPixelCNN (α : Type) where
  in_channels : ℕ
  out_dim : ℕ
  n_gated : ℕ
  gated_channels : ℕ
  head_channels : ℕ
  input : GatedPixelCNNLayer α
  gated_layers : List (GatedPixelCNNLayer α)
  head_conv1 : Conv2d α
  head_conv2 : Conv2d α

/-- Embedding of `GatedPixelCNN.__init__` (source lines 135–177): one causal
input layer with `kernel_size=7`, `n_gated` non-causal layers with
`kernel_size=3`, and the head `ReLU → Conv2d(gated, head, 1) → ReLU →
Conv2d(head, out_dim * in_channels, 1) → Sigmoid`.  The layer constructors
keep their assertion, hence the `Option`. -/
def GatedPixelCNN.init (in_channels out_dim n_gated gated_channels head_channels : ℕ)
    (inputWs : LayerWeights α) (gatedWs : ℕ → LayerWeights α)
    (h1w : ℕ → ℕ → ℕ → ℕ → α) (h1b : ℕ → α)
    (h2w : ℕ → ℕ → ℕ → ℕ → α) (h2b : ℕ → α) : Option (GatedPixelCNN α) := do
  let inputLayer ← GatedPixelCNNLayer.init in_channels gated_channels 7 true inputWs
  let gs ← (List.range n_gated).mapM fun i =>
    GatedPixelCNNLayer.init gated_channels gated_channels 3 false (gatedWs i)
  return { in_channels := in_channels, out_dim := out_dim, n_gated := n_gated,
           gated_channels := gated_channels, head_channels := head_channels,
           input := inputLayer, gated_layers := gs,
           head_conv1 := ⟨gated_channels, head_channels, 1, 1, 0, 0, h1w, h1b⟩,
           head_conv2 := ⟨head_channels, out_dim * in_channels, 1, 1, 0, 0, h2w, h2b⟩ }

/-- `nn.ReLU` on a scalar. -/
def relu (x : α) : α := max x 0

/-- `self._head` (source lines 168–177) applied to the accumulated skip sum:
`ReLU`, first 1×1 convolution, `ReLU`, second 1×1 convolution, elementwise
sigmoid `s`. -/
def headApply (m : GatedPixelCNN α) (s : α → α) (x : Tensor4 α) : Tensor4 α :=
  (m.head_conv2.apply ((m.head_conv1.apply (x.map relu)).map relu)).map s

/-- Source line 185 `.view((n, self._out_dim, c, h, w))`: row-major reshape of
a 4D tensor into a 5D tensor; fails (`none`) unless the element counts agree,
as `torch.Tensor.view` does. -/
def Tensor4.view5 (t : Tensor4 α) (n d c h w : ℕ) : Option (Tensor5 α) :=
  if t.n * (t.c * (t.h * t.w)) = n * (d * (c * (h * w))) then
    some { n := n, d := d, c := c, h := h, w := w,
           data := fun n' dd cc i j =>
             let L := (((n' * d + dd) * c + cc) * h + i) * w + j
             t.data (L / (t.c * (t.h * t.w))) (L / (t.h * t.w) % t.c)
               (L / t.w % t.h) (L % t.w) }
  else none

/-- The loop of source lines 182–184: thread `(vstack, hstack)` through the
gated layers in order, accumulating each layer's skip output into the running
`skip_connections` sum. -/
def runGated (t s : α → α) :
    List (GatedPixelCNNLayer α) → Tensor4 α × Tensor4 α × Tensor4 α →
      Option (Tensor4 α × Tensor4 α × Tensor4 α)
  | [], st => some st
  | l :: ls, (v, h, acc) => do
      let (v', h', sk) ← l.forward t s v h
      runGated t s ls (v', h', tAdd acc sk)

/-- Embedding of `GatedPixelCNN.forward` (source lines 179–185): seed both
stacks with the input image, run the causal input layer, fold the gated
layers while accumulating skips, apply the head and reshape to
`(n, out_dim, c, h, w)`. -/
def GatedPixelCNN.forward (m : GatedPixelCNN α) (t s : α → α) (x : Tensor4 α) :
    Option (Tensor5 α) := do
  let (vstack, hstack, skip_connections) ← m.input.forward t s x x
  let (_, _, skipSum) ← runGated t s m.gated_layers (vstack, hstack, skip_connections)
  (headApply m s skipSum).view5 x.n m.out_dim x.c x.h x.w

/-- Python runtime errors that `GatedPixelCNN.sample` can raise. -/
inductive PyErr where
  | nameError (n : String)
  | attributeError (n : String)
deriving DecidableEq

/-- Names visible inside the body of `GatedPixelCNN.sample`: its locals on
entry (`self` and the parameter `condition_on`, source line 190) and the
enclosing module's globals (source lines 19–21 and the three class names).
`conditioned_on` is in neither. -/
def sampleScopeNames : List String :=
  ["self", "condition_on",
   "torch", "distributions", "nn",
   "GatedActivation", "GatedPixelCNNLayer", "GatedPixelCNN"]

/-- Python name resolution: a name not bound in any visible scope raises
`NameError`. -/
def pythonLookup (env : List String) (n : String) : Except PyErr Unit :=
  if n ∈ env then Except.ok () else Except.error (PyErr.nameError n)

/-- Embedding of `GatedPixelCNN.sample` (source lines 190–215).  The first
statement executed, line 201 `if conditioned_on is None:`, reads the name
`conditioned_on`; the parameter is named `condition_on` and no local,
enclosing, global or builtin binding for `conditioned_on` exists, so every
call raises `NameError` there.  The rest of the body (the default canvas
creation — which would itself read the nonexistent attribute
`self._input_dim` — and the 28×28 raster sampling loop of lines 202–215) is
unreachable, so the continuation after the failed lookup is dead code and no
canvas is ever returned. -/
def GatedPixelCNN.sample (_m : GatedPixelCNN α) (_condition_on : Option (Tensor4 α)) :
    Except PyErr (Tensor4 α) :=
  (pythonLookup sampleScopeNames "conditioned_on").bind fun _ =>
    Except.error (PyErr.nameError "conditioned_on")

/-- The real-number sigmoid `nn.Sigmoid` / `torch.sigmoid` computes. -/
noncomputable def sigmoidR (x : ℝ) : ℝ := 1 / (1 + Real.exp (-x))

theorem sigmoidR_nonneg (x : ℝ) : 0 ≤ sigmoidR x := by
  have h : (0 : ℝ) < 1 + Real.exp (-x) := by positivity
  exact le_of_lt (div_pos one_pos h)

theorem sigmoidR_le_one (x : ℝ) : sigmoidR x ≤ 1 := by
  have h : (0 : ℝ) < 1 + Real.exp (-x) := by positivity
  rw [sigmoidR, div_le_one h]
  have := Real.exp_pos (-x)
  linarith

/-- Column locality of a zero-padded convolution: an output entry in column
`j` reads input columns `≤ j + kw − 1 − pw` only, so two inputs of equal
spatial extent that agree on all columns `≤ J` yield the same output entry
whenever `j + kw ≤ J + pw + 1`. -/
theorem Conv2d.apply_congr_col (p : Conv2d α) {t₁ t₂ : Tensor4 α}
    (hh : t₁.h = t₂.h) (hw : t₁.w = t₂.w) {J : ℕ}
    (hagree : ∀ n c i j, j ≤ J → t₁.data n c i j = t₂.data n c i j)
    (n oc i j : ℕ) (hj : j + p.kw ≤ J + p.pw + 1) :
    (p.apply t₁).data n oc i j = (p.apply t₂).data n oc i j := by
  simp only [Conv2d.apply]
  congr 1
  refine Finset.sum_congr rfl fun ic _ => Finset.sum_congr rfl fun a _ =>
    Finset.sum_congr rfl fun b hb => ?_
  have hb' : b < p.kw := Finset.mem_range.mp hb
  unfold paddedAt
  rw [hh, hw]
  by_cases hg : p.ph ≤ i + a ∧ i + a < p.ph + t₂.h ∧ p.pw ≤ j + b ∧ j + b < p.pw + t₂.w
  · rw [if_pos hg, if_pos hg, hagree n ic (i + a - p.ph) (j + b - p.pw) (by omega)]
  · rw [if_neg hg, if_neg hg]

/-- Row locality of a zero-padded convolution: an output entry in row `i`
reads input rows `≤ i + kh − 1 − ph` only. -/
theorem Conv2d.apply_congr_row (p : Conv2d α) {t₁ t₂ : Tensor4 α}
    (hh : t₁.h = t₂.h) (hw : t₁.w = t₂.w) {R : ℕ}
    (hagree : ∀ n c i j, i ≤ R → t₁.data n c i j = t₂.data n c i j)
    (n oc i j : ℕ) (hi : i + p.kh ≤ R + p.ph + 1) :
    (p.apply t₁).data n oc i j = (p.apply t₂).data n oc i j := by
  simp only [Conv2d.apply]
  congr 1
  refine Finset.sum_congr rfl fun ic _ => Finset.sum_congr rfl fun a ha =>
    Finset.sum_congr rfl fun b _ => ?_
  have ha' : a < p.kh := Finset.mem_range.mp ha
  unfold paddedAt
  rw [hh, hw]
  by_cases hg : p.ph ≤ i + a ∧ i + a < p.ph + t₂.h ∧ p.pw ≤ j + b ∧ j + b < p.pw + t₂.w
  · rw [if_pos hg, if_pos hg, hagree n ic (i + a - p.ph) (j + b - p.pw) (by omega)]
  · rw [if_neg hg, if_neg hg]

/-- Crop-after-pad arithmetic of the vertical stack: for an odd kernel the
cropped double convolution restores its input's spatial extent. -/
theorem vstackPre_shape (l : GatedPixelCNNLayer α) (vin : Tensor4 α)
    (hk : l.kernel_size % 2 = 1) :
    (vstackPre l vin).n = vin.n ∧ (vstackPre l vin).c = 2 * l.out_channels ∧
      (vstackPre l vin).h = vin.h ∧ (vstackPre l vin).w = vin.w := by
  refine ⟨rfl, rfl, ?_, ?_⟩ <;>
    simp only [vstackPre, Tensor4.cropH, Conv2d.apply,
      GatedPixelCNNLayer.vstack_Nx1, GatedPixelCNNLayer.vstack_1xN,
      GatedPixelCNNLayer.padding] <;> omega

/-- Shape of the vertical-stack output: `(n, out_channels, h, w)` of the
vertical-stack input. -/
theorem vstackOut_shape (l : GatedPixelCNNLayer α) (t s : α → α) (vin : Tensor4 α)
    (hk : l.kernel_size % 2 = 1) :
    (vstackOut l t s vin).n = vin.n ∧ (vstackOut l t s vin).c = l.out_channels ∧
      (vstackOut l t s vin).h = vin.h ∧ (vstackOut l t s vin).w = vin.w := by
  obtain ⟨h1, h2, h3, h4⟩ := vstackPre_shape l vin hk
  refine ⟨h1, ?_, h3, h4⟩
  show min ((vstackSum l vin).c / 2) (vstackSum l vin).c - 0 = l.out_channels
  have hc : (vstackSum l vin).c = 2 * l.out_channels := rfl
  omega

/-- Shape of the gated horizontal stack before the skip/residual projections:
`(n, out_channels, h, w)` of the vertical-stack input. -/
theorem hstackGated_shape (l : GatedPixelCNNLayer α) (t s : α → α) (vin hin : Tensor4 α)
    (hk : l.kernel_size % 2 = 1) :
    (hstackGated l t s vin hin).n = vin.n ∧
      (hstackGated l t s vin hin).c = l.out_channels ∧
      (hstackGated l t s vin hin).h = vin.h ∧
      (hstackGated l t s vin hin).w = vin.w := by
  obtain ⟨h1, h2, h3, h4⟩ := vstackPre_shape l vin hk
  have hc : (hstackPreGate l vin hin).c = 2 * l.out_channels := rfl
  have hn : (hstackPreGate l vin hin).n = (vstackPre l vin).n := rfl
  have hhh : (hstackPreGate l vin hin).h = (vstackPre l vin).h := rfl
  have hww : (hstackPreGate l vin hin).w = (vstackPre l vin).w := rfl
  refine ⟨by rw [← h1]; exact hn, ?_, by rw [← h3]; exact hhh, by rw [← h4]; exact hww⟩
  show min ((hstackPreGate l vin hin).c / 2) (hstackPreGate l vin hin).c - 0 = l.out_channels
  omega

/-- Shape of the skip output: `(n, out_channels, h, w)` of the vertical-stack
input. -/
theorem skipOut_shape (l : GatedPixelCNNLayer α) (t s : α → α) (vin hin : Tensor4 α)
    (hk : l.kernel_size % 2 = 1) :
    (skipOut l t s vin hin).n = vin.n ∧ (skipOut l t s vin hin).c = l.out_channels ∧
      (skipOut l t s vin hin).h = vin.h ∧ (skipOut l t s vin hin).w = vin.w := by
  obtain ⟨h1, h2, h3, h4⟩ := hstackGated_shape l t s vin hin hk
  exact ⟨h1, rfl, by show (hstackGated l t s vin hin).h + 2 * 0 + 1 - 1 = vin.h; omega,
    by show (hstackGated l t s vin hin).w + 2 * 0 + 1 - 1 = vin.w; omega⟩

/-- Shape of the horizontal-stack output: `(n, out_channels, h, w)` of the
vertical-stack input, in both the causal and the non-causal case. -/
theorem hstackOut_shape (l : GatedPixelCNNLayer α) (t s : α → α) (vin hin : Tensor4 α)
    (hk : l.kernel_size % 2 = 1) :
    (hstackOut l t s vin hin).n = vin.n ∧ (hstackOut l t s vin hin).c = l.out_channels ∧
      (hstackOut l t s vin hin).h = vin.h ∧ (hstackOut l t s vin hin).w = vin.w := by
  obtain ⟨h1, h2, h3, h4⟩ := hstackGated_shape l t s vin hin hk
  have hres : (l.hstack_residual.apply (hstackGated l t s vin hin)).n = vin.n ∧
      (l.hstack_residual.apply (hstackGated l t s vin hin)).c = l.out_channels ∧
      (l.hstack_residual.apply (hstackGated l t s vin hin)).h = vin.h ∧
      (l.hstack_residual.apply (hstackGated l t s vin hin)).w = vin.w :=
    ⟨h1, rfl, by show (hstackGated l t s vin hin).h + 2 * 0 + 1 - 1 = vin.h; omega,
      by show (hstackGated l t s vin hin).w + 2 * 0 + 1 - 1 = vin.w; omega⟩
  unfold hstackOut
  cases hcaus : l.is_causal
  · simpa [tAdd] using hres
  · simpa using hres

/-- Claim C2: for every valid input pair of shape `(N, in_channels, H, W)`
(with the layer's odd kernel size, as its constructor asserts),
`GatedPixelCNNLayer.forward` returns three tensors `(vstack, hstack, skip)`,
each of shape `(N, out_channels, H, W)`: the crop-after-pad arithmetic
restores exactly the input's spatial extent in both stacks. -/
theorem claim_C2_layer_shapes (l : GatedPixelCNNLayer α) (t s : α → α)
    (vin hin : Tensor4 α) (hk : l.kernel_size % 2 = 1)
    (hn : hin.n = vin.n) (hcin : vin.c = l.in_channels) (hcin' : hin.c = l.in_channels)
    (hh : hin.h = vin.h) (hw : hin.w = vin.w) :
    l.forward t s vin hin =
      some (vstackOut l t s vin, hstackOut l t s vin hin, skipOut l t s vin hin) ∧
    ((vstackOut l t s vin).n = vin.n ∧ (vstackOut l t s vin).c = l.out_channels ∧
      (vstackOut l t s vin).h = vin.h ∧ (vstackOut l t s vin).w = vin.w) ∧
    ((hstackOut l t s vin hin).n = vin.n ∧
      (hstackOut l t s vin hin).c = l.out_channels ∧
      (hstackOut l t s vin hin).h = vin.h ∧ (hstackOut l t s vin hin).w = vin.w) ∧
    ((skipOut l t s vin hin).n = vin.n ∧ (skipOut l t s vin hin).c = l.out_channels ∧
      (skipOut l t s vin hin).h = vin.h ∧ (skipOut l t s vin hin).w = vin.w) :=
  ⟨GatedPixelCNNLayer.forward_eq l t s vin hin, vstackOut_shape l t s vin hk,
    hstackOut_shape l t s vin hin hk, skipOut_shape l t s vin hin hk⟩

/-- Claim C1: for a causal `GatedPixelCNNLayer`, perturbing `hstack_input`
only at columns strictly greater than `c` leaves the hstack output unchanged
at every position of column `c`, and perturbing `vstack_input` only at rows
strictly greater than `r` leaves the vstack output unchanged at every
position of row `r`. -/
theorem claim_C1_causality (l : GatedPixelCNNLayer α) (t s : α → α)
    (hcaus : l.is_causal = true) :
    (∀ (vin hin₁ hin₂ : Tensor4 α) (c : ℕ),
      hin₁.n = hin₂.n → hin₁.c = hin₂.c → hin₁.h = hin₂.h → hin₁.w = hin₂.w →
      (∀ n ch i j, j ≤ c → hin₁.data n ch i j = hin₂.data n ch i j) →
      ∀ n ch i, (hstackOut l t s vin hin₁).data n ch i c =
        (hstackOut l t s vin hin₂).data n ch i c) ∧
    (∀ (vin₁ vin₂ hin : Tensor4 α) (r : ℕ),
      vin₁.n = vin₂.n → vin₁.c = vin₂.c → vin₁.h = vin₂.h → vin₁.w = vin₂.w →
      (∀ n ch i j, i ≤ r → vin₁.data n ch i j = vin₂.data n ch i j) →
      ∀ n ch j, (vstackOut l t s vin₁).data n ch r j =
        (vstackOut l t s vin₂).data n ch r j) := by
  constructor
  · intro vin hin₁ hin₂ c _ _ hh hw hagree n ch i
    have hconv : ∀ n' ch' i' j', j' ≤ c →
        (l.hstack_1xN.apply hin₁).data n' ch' i' j' =
          (l.hstack_1xN.apply hin₂).data n' ch' i' j' := by
      intro n' ch' i' j' hj
      exact Conv2d.apply_congr_col l.hstack_1xN hh hw hagree n' ch' i' j'
        (by simp only [GatedPixelCNNLayer.hstack_1xN, GatedPixelCNNLayer.padding, hcaus,
          if_true]; omega)
    have hpre : ∀ n' ch' i' j', j' ≤ c →
        (hstackPreGate l vin hin₁).data n' ch' i' j' =
          (hstackPreGate l vin hin₂).data n' ch' i' j' := by
      intro n' ch' i' j' hj
      show (linkOut l vin).data n' ch' i' j' + (l.hstack_1xN.apply hin₁).data n' ch' i' j' =
        (linkOut l vin).data n' ch' i' j' + (l.hstack_1xN.apply hin₂).data n' ch' i' j'
      rw [hconv n' ch' i' j' hj]
    have hcch : (hstackPreGate l vin hin₁).c = 2 * l.out_channels := rfl
    have hcch' : (hstackPreGate l vin hin₂).c = 2 * l.out_channels := rfl
    have hG : ∀ n' ch' i' j', j' ≤ c →
        (hstackGated l t s vin hin₁).data n' ch' i' j' =
          (hstackGated l t s vin hin₂).data n' ch' i' j' := by
      intro n' ch' i' j' hj
      show t ((hstackPreGate l vin hin₁).data n' (0 + ch') i' j') *
          s ((hstackPreGate l vin hin₁).data n' ((hstackPreGate l vin hin₁).c / 2 + ch') i' j') =
        t ((hstackPreGate l vin hin₂).data n' (0 + ch') i' j') *
          s ((hstackPreGate l vin hin₂).data n' ((hstackPreGate l vin hin₂).c / 2 + ch') i' j')
      rw [hcch, hcch', hpre n' (0 + ch') i' j' hj,
        hpre n' (2 * l.out_channels / 2 + ch') i' j' hj]
    have hfinal : (l.hstack_residual.apply (hstackGated l t s vin hin₁)).data n ch i c =
        (l.hstack_residual.apply (hstackGated l t s vin hin₂)).data n ch i c := by
      refine Conv2d.apply_congr_col l.hstack_residual ?_ ?_ hG n ch i c ?_
      · rfl
      · rfl
      · show c + 1 ≤ c + 0 + 1
        omega
    simpa only [hstackOut, hcaus, if_true] using hfinal
  · intro vin₁ vin₂ hin r _ _ hh hw hagree n ch j
    have h1 : ∀ n' ch' i' j', i' ≤ r →
        (l.vstack_1xN.apply vin₁).data n' ch' i' j' =
          (l.vstack_1xN.apply vin₂).data n' ch' i' j' := by
      intro n' ch' i' j' hi
      exact Conv2d.apply_congr_row l.vstack_1xN hh hw hagree n' ch' i' j'
        (by show i' + 1 ≤ r + 0 + 1; omega)
    have h2 : ∀ n' ch' j', (vstackPre l vin₁).data n' ch' r j' =
        (vstackPre l vin₂).data n' ch' r j' := by
      intro n' ch' j'
      show (l.vstack_Nx1.apply (l.vstack_1xN.apply vin₁)).data n' ch' r j' =
        (l.vstack_Nx1.apply (l.vstack_1xN.apply vin₂)).data n' ch' r j'
      refine Conv2d.apply_congr_row l.vstack_Nx1 ?_ ?_ h1 n' ch' r j' ?_
      · show vin₁.h + 2 * 0 + 1 - 1 = vin₂.h + 2 * 0 + 1 - 1
        omega
      · show vin₁.w + 2 * l.padding + 1 - l.kernel_size =
          vin₂.w + 2 * l.padding + 1 - l.kernel_size
        omega
      · simp only [GatedPixelCNNLayer.vstack_Nx1, GatedPixelCNNLayer.padding]
        omega
    have h3 : ∀ n' ch' j', (l.vstack_1x1.apply vin₁).data n' ch' r j' =
        (l.vstack_1x1.apply vin₂).data n' ch' r j' := by
      intro n' ch' j'
      exact Conv2d.apply_congr_row l.vstack_1x1 hh hw hagree n' ch' r j'
        (by show r + 1 ≤ r + 0 + 1; omega)
    have h4 : ∀ n' ch' j', (vstackSum l vin₁).data n' ch' r j' =
        (vstackSum l vin₂).data n' ch' r j' := by
      intro n' ch' j'
      show (vstackPre l vin₁).data n' ch' r j' + (l.vstack_1x1.apply vin₁).data n' ch' r j' =
        (vstackPre l vin₂).data n' ch' r j' + (l.vstack_1x1.apply vin₂).data n' ch' r j'
      rw [h2, h3]
    have hc₁ : (vstackSum l vin₁).c = 2 * l.out_channels := rfl
    have hc₂ : (vstackSum l vin₂).c = 2 * l.out_channels := rfl
    show t ((vstackSum l vin₁).data n (0 + ch) r j) *
        s ((vstackSum l vin₁).data n ((vstackSum l vin₁).c / 2 + ch) r j) =
      t ((vstackSum l vin₂).data n (0 + ch) r j) *
        s ((vstackSum l vin₂).data n ((vstackSum l vin₂).c / 2 + ch) r j)
    rw [hc₁, hc₂, h4 n (0 + ch) j, h4 n (2 * l.out_channels / 2 + ch) j]

/-- Claim C7: on an input with an even channel count, `GatedActivation.forward`
returns `tanh` of the first half of the channels times `sigmoid` of the last
half, with half the channels and unchanged batch and spatial extents. -/
theorem claim_C7_gated_activation (t s : α → α) (x : Tensor4 α) (hc : x.c % 2 = 0) :
    ∃ y, GatedActivation.forward t s x = some y ∧
      y.n = x.n ∧ y.c = x.c / 2 ∧ y.h = x.h ∧ y.w = x.w ∧
      ∀ n ch i j, y.data n ch i j =
        t (x.data n ch i j) * s (x.data n (x.c / 2 + ch) i j) := by
  refine ⟨gatedCore t s x, by simp [GatedActivation.forward, hc], rfl, ?_, rfl, rfl, ?_⟩
  · show min (x.c / 2) x.c - 0 = x.c / 2
    have := Nat.div_le_self x.c 2
    omega
  · intro n ch i j
    show t (x.data n (0 + ch) i j) * s (x.data n (x.c / 2 + ch) i j) = _
    rw [Nat.zero_add]

/-- A 1×1 unpadded convolution with identity weight matrix and zero bias acts
as the identity on every in-range entry. -/
theorem conv1x1_identity (p : Conv2d α) (x : Tensor4 α)
    (hkh : p.kh = 1) (hkw : p.kw = 1) (hph : p.ph = 0) (hpw : p.pw = 0)
    (hwt : ∀ oc ic, p.weight oc ic 0 0 = if oc = ic then 1 else 0)
    (hb : ∀ oc, p.bias oc = 0)
    (n ch i j : ℕ) (hch : ch < p.inC) (hi : i < x.h) (hj : j < x.w) :
    (p.apply x).data n ch i j = x.data n ch i j := by
  simp only [Conv2d.apply, hkh, hkw, hph, hpw, hb, Finset.sum_range_one, zero_add]
  have hpad : ∀ ic, paddedAt x 0 0 n ic (i + 0) (j + 0) = x.data n ic i j := by
    intro ic
    unfold paddedAt
    rw [if_pos ⟨Nat.zero_le _, by omega, Nat.zero_le _, by omega⟩]
    simp
  calc (∑ ic ∈ Finset.range p.inC, p.weight ch ic 0 0 * paddedAt x 0 0 n ic (i + 0) (j + 0))
      = ∑ ic ∈ Finset.range p.inC, if ch = ic then x.data n ic i j else 0 := by
        refine Finset.sum_congr rfl fun ic _ => ?_
        rw [hwt, hpad]
        split <;> simp
    _ = x.data n ch i j := by
        rw [Finset.sum_ite_eq]
        simp [Finset.mem_range.mpr hch]

/-- Claim C8: when the layer is not causal and its residual 1×1 projection is
the identity, the hstack output is the gated activation output plus the
original `hstack_input` at every in-range position; when it is causal, the
residual addition is absent by construction and the hstack output is the
residual projection of the gated branch alone. -/
theorem claim_C8_residual (l : GatedPixelCNNLayer α) (t s : α → α) (vin hin : Tensor4 α) :
    (l.is_causal = false →
      (∀ oc ic, l.weights.hstack_residual_w oc ic 0 0 = if oc = ic then 1 else 0) →
      (∀ oc, l.weights.hstack_residual_b oc = 0) →
      ∀ n ch i j, ch < l.out_channels → i < (hstackGated l t s vin hin).h →
        j < (hstackGated l t s vin hin).w →
        (hstackOut l t s vin hin).data n ch i j =
          (hstackGated l t s vin hin).data n ch i j + hin.data n ch i j) ∧
    (l.is_causal = true →
      hstackOut l t s vin hin = l.hstack_residual.apply (hstackGated l t s vin hin)) := by
  constructor
  · intro hnc hwt hb n ch i j hch hi hj
    have hid : (l.hstack_residual.apply (hstackGated l t s vin hin)).data n ch i j =
        (hstackGated l t s vin hin).data n ch i j :=
      conv1x1_identity l.hstack_residual (hstackGated l t s vin hin)
        rfl rfl rfl rfl hwt hb n ch i j hch hi hj
    have hout : hstackOut l t s vin hin =
        tAdd (l.hstack_residual.apply (hstackGated l t s vin hin)) hin := by
      simp [hstackOut, hnc]
    rw [hout]
    show (l.hstack_residual.apply (hstackGated l t s vin hin)).data n ch i j +
      hin.data n ch i j = _
    rw [hid]
  · intro hcaus
    simp [hstackOut, hcaus]

/-- Claim C10: the gated activation fails exactly on an odd channel count and
`GatedPixelCNNLayer` construction fails exactly on an even kernel size; in
both cases the result is `none` — no partial result. -/
theorem claim_C10_preconditions :
    (∀ (t s : α → α) (x : Tensor4 α),
      GatedActivation.forward t s x = none ↔ x.c % 2 = 1) ∧
    (∀ (inC outC k : ℕ) (b : Bool) (ws : LayerWeights α),
      GatedPixelCNNLayer.init inC outC k b ws = none ↔ k % 2 = 0) := by
  constructor
  · intro t s x
    by_cases hx : x.c % 2 = 0
    · rw [GatedActivation.forward, if_pos hx]
      constructor
      · intro h
        exact absurd h (by simp)
      · intro h
        omega
    · rw [GatedActivation.forward, if_neg hx]
      constructor
      · intro _
        omega
      · intro _
        rfl
  · intro inC outC k b ws
    by_cases hk : k % 2 = 1
    · rw [GatedPixelCNNLayer.init, if_pos hk]
      constructor
      · intro h
        exact absurd h (by simp)
      · intro h
        omega
    · rw [GatedPixelCNNLayer.init, if_neg hk]
      constructor
      · intro _
        omega
      · intro _
        rfl

/-- The horizontal-stack pre-gating term as the spec's claim words it: the
link convolution applied to the tensor that *includes* the `vstack_1x1`
shortcut contribution (the tensor later passed to `GatedActivation`), plus
the cropped horizontal convolution.  Stated for comparison with
`hstackPreGate`, which the code computes from line 115 — *before* line 116
adds the shortcut. -/
def hstackPreGateClaimC9 (l : GatedPixelCNNLayer α) (vin hin : Tensor4 α) : Tensor4 α :=
  tAdd (l.link.apply (vstackSum l vin)) ((l.hstack_1xN.apply hin).cropW vin.w)

/-- Claim C9, amended: the term added to the horizontal stack before gating is
the 1×1 link convolution applied to the cropped vertical-stack convolution
output *before* the `vstack_1x1` shortcut is added (the tensor subsequently
gated to produce the vertical stack output additionally contains that
shortcut), and this link term is the sole path through which vertical-stack
information reaches the horizontal stack and the skip output. -/
theorem claim_C9_link_amended (l : GatedPixelCNNLayer α) (t s : α → α)
    (vin hin : Tensor4 α) :
    (∀ n ch i j, (hstackPreGate l vin hin).data n ch i j =
      (l.link.apply (vstackPre l vin)).data n ch i j +
        (l.hstack_1xN.apply hin).data n ch i j) ∧
    vstackSum l vin = tAdd (vstackPre l vin) (l.vstack_1x1.apply vin) ∧
    (∀ vin₂ : Tensor4 α, linkOut l vin = linkOut l vin₂ →
      hstackOut l t s vin hin = hstackOut l t s vin₂ hin ∧
      skipOut l t s vin hin = skipOut l t s vin₂ hin) := by
  refine ⟨fun n ch i j => rfl, rfl, fun vin₂ heq => ?_⟩
  have hpre : hstackPreGate l vin hin = hstackPreGate l vin₂ hin := by
    unfold hstackPreGate linkOut at heq ⊢
    rw [heq]
    rfl
  have hG : hstackGated l t s vin hin = hstackGated l t s vin₂ hin := by
    unfold hstackGated
    rw [hpre]
  constructor
  · unfold hstackOut
    rw [hG]
  · unfold skipOut
    rw [hG]

/-- A layer with `in_channels = out_channels = 1`, `kernel_size = 1`,
`is_causal = true`, all convolution weights 1 and all biases 0, used as a
concrete evaluation point. -/
def onesLayer : GatedPixelCNNLayer ℤ :=
  ⟨1, 1, 1, true,
    ⟨fun _ _ _ _ => 1, fun _ => 0, fun _ _ _ _ => 1, fun _ => 0,
     fun _ _ _ _ => 1, fun _ => 0, fun _ _ _ _ => 1, fun _ => 0,
     fun _ _ _ _ => 1, fun _ => 0, fun _ _ _ _ => 1, fun _ => 0,
     fun _ _ _ _ => 1, fun _ => 0⟩⟩

/-- The all-ones 1×1×1×1 feature map over `ℤ`. -/
def onesT : Tensor4 ℤ := ⟨1, 1, 1, 1, fun _ _ _ _ => 1⟩

/-- Counterexample to claim C9 as stated: on `onesLayer` with all-ones inputs,
the term the code adds to the horizontal stack before gating (link applied to
the pre-shortcut vertical stack, value 0) differs from the link convolution
of the tensor passed to `GatedActivation` (which includes the `vstack_1x1`
shortcut, value 2). -/
theorem claim_C9_counterexample :
    (hstackPreGate onesLayer onesT onesT).data 0 0 0 0 ≠
      (hstackPreGateClaimC9 onesLayer onesT onesT).data 0 0 0 0 := by
  decide

/-- A trivially-weighted `GatedPixelCNN` over `ℤ`, used only as the receiver
of `sample` calls (which fail before reading any model state). -/
def zeroModel : GatedPixelCNN ℤ :=
  ⟨1, 1, 0, 1, 1,
    ⟨1, 1, 7, true,
      ⟨fun _ _ _ _ => 0, fun _ => 0, fun _ _ _ _ => 0, fun _ => 0,
       fun _ _ _ _ => 0, fun _ => 0, fun _ _ _ _ => 0, fun _ => 0,
       fun _ _ _ _ => 0, fun _ => 0, fun _ _ _ _ => 0, fun _ => 0,
       fun _ _ _ _ => 0, fun _ => 0⟩⟩,
    [],
    ⟨1, 1, 1, 1, 0, 0, fun _ _ _ _ => 0, fun _ => 0⟩,
    ⟨1, 1, 1, 1, 0, 0, fun _ _ _ _ => 0, fun _ => 0⟩⟩

/-- A 1×1×28×28 canvas holding fixed evidence (value `1`) at pixel `(0, 0)`
and the sentinel `-1` everywhere else. -/
def mixedCanvas : Tensor4 ℤ :=
  ⟨1, 1, 28, 28, fun _ _ i j => if i = 0 ∧ j = 0 then 1 else -1⟩

/-- The all `-1` canvas of shape 1×1×28×28. -/
def negCanvas : Tensor4 ℤ := ⟨1, 1, 28, 28, fun _ _ _ _ => -1⟩

/-- Claim C6: every invocation of `GatedPixelCNN.sample`, whatever its
argument, raises `NameError` for `conditioned_on` — the parameter is named
`condition_on`, line 201 reads the unbound name `conditioned_on` — so the
method never returns a canvas. -/
theorem claim_C6_sample_name_error {β : Type} (m : GatedPixelCNN β)
    (arg : Option (Tensor4 β)) :
    m.sample arg = Except.error (PyErr.nameError "conditioned_on") := rfl

/-- Claim C4 is right about the intent and the code is wrong: evaluating
`sample` on a canvas holding fixed evidence (`≥ 0`) at one pixel and `-1`
elsewhere raises `NameError` on its first statement instead of returning a
canvas with the evidence preserved. -/
theorem claim_C4_sample_bug_eval :
    zeroModel.sample (some mixedCanvas) =
      Except.error (PyErr.nameError "conditioned_on") := rfl

/-- Claim C5 is right about the intent and the code is wrong: both the
unconditional call and the call on an all `-1` canvas raise `NameError` on
the first statement of `sample`, so no raster-order fill ever happens. -/
theorem claim_C5_sample_bug_eval :
    zeroModel.sample none = Except.error (PyErr.nameError "conditioned_on") ∧
      zeroModel.sample (some negCanvas) =
        Except.error (PyErr.nameError "conditioned_on") := ⟨rfl, rfl⟩

/-- `mapM` of an always-succeeding function over `Option` is `some` of the
plain `map`. -/
theorem mapM_some {β γ : Type} (g : β → γ) :
    ∀ l : List β, (l.mapM (fun i => some (g i)) : Option (List γ)) = some (l.map g)
  | [] => rfl
  | x :: xs => by
      rw [List.mapM_cons, mapM_some g xs]
      rfl

/-- `GatedPixelCNN.init` always succeeds (its two layer kernel sizes, 7 and 3,
are odd) and builds exactly the architecture of source lines 154–177. -/
theorem GatedPixelCNN.init_eq
    (in_channels out_dim n_gated gated_channels head_channels : ℕ)
    (inputWs : LayerWeights α) (gatedWs : ℕ → LayerWeights α)
    (h1w : ℕ → ℕ → ℕ → ℕ → α) (h1b : ℕ → α)
    (h2w : ℕ → ℕ → ℕ → ℕ → α) (h2b : ℕ → α) :
    GatedPixelCNN.init in_channels out_dim n_gated gated_channels head_channels
        inputWs gatedWs h1w h1b h2w h2b =
      some { in_channels := in_channels, out_dim := out_dim, n_gated := n_gated,
             gated_channels := gated_channels, head_channels := head_channels,
             input := ⟨in_channels, gated_channels, 7, true, inputWs⟩,
             gated_layers := (List.range n_gated).map fun i =>
               ⟨gated_channels, gated_channels, 3, false, gatedWs i⟩,
             head_conv1 := ⟨gated_channels, head_channels, 1, 1, 0, 0, h1w, h1b⟩,
             head_conv2 := ⟨head_channels, out_dim * in_channels, 1, 1, 0, 0, h2w, h2b⟩ } := by
  unfold GatedPixelCNN.init
  rw [GatedPixelCNNLayer.init, if_pos (by norm_num : (7 : ℕ) % 2 = 1)]
  have h3 : (fun i => GatedPixelCNNLayer.init (α := α) gated_channels gated_channels 3
      false (gatedWs i)) =
      fun i => some (⟨gated_channels, gated_channels, 3, false, gatedWs i⟩ :
        GatedPixelCNNLayer α) := by
    funext i
    rw [GatedPixelCNNLayer.init, if_pos]
    norm_num
  rw [h3, mapM_some]
  rfl

/-- `runGated` always succeeds, and the accumulated skip sum keeps the shape
of the initial accumulator (`tAdd` takes its shape from its left operand). -/
theorem runGated_some (t s : α → α) :
    ∀ (ls : List (GatedPixelCNNLayer α)) (v h acc : Tensor4 α),
      ∃ v' h' acc', runGated t s ls (v, h, acc) = some (v', h', acc') ∧
        acc'.n = acc.n ∧ acc'.c = acc.c ∧ acc'.h = acc.h ∧ acc'.w = acc.w := by
  intro ls
  induction ls with
  | nil =>
    intro v h acc
    exact ⟨v, h, acc, rfl, rfl, rfl, rfl, rfl⟩
  | cons l ls ih =>
    intro v h acc
    obtain ⟨v', h', acc', heq, h1, h2, h3, h4⟩ :=
      ih (vstackOut l t s v) (hstackOut l t s v h) (tAdd acc (skipOut l t s v h))
    refine ⟨v', h', acc', ?_, h1, h2, h3, h4⟩
    show (l.forward t s v h).bind _ = _
    rw [GatedPixelCNNLayer.forward_eq]
    exact heq

/-- Row-major `view` of an NCHW tensor into five dimensions: when the channel
axis factors as `d * c` and the other extents are unchanged, the reshape
succeeds, every output entry is an input entry, and in-range entries satisfy
the channel-splitting index law `out[n', dd, cc, i, j] = in[n', dd*c + cc, i, j]`. -/
theorem view5_spec (x : Tensor4 α) (n d c h w : ℕ)
    (hn : x.n = n) (hc : x.c = d * c) (hh : x.h = h) (hw : x.w = w) :
    ∃ t5, x.view5 n d c h w = some t5 ∧
      t5.n = n ∧ t5.d = d ∧ t5.c = c ∧ t5.h = h ∧ t5.w = w ∧
      (∀ n' dd cc i j, ∃ a b e f, t5.data n' dd cc i j = x.data a b e f) ∧
      (∀ n' dd cc i j, dd < d → cc < c → i < h → j < w →
        t5.data n' dd cc i j = x.data n' (dd * c + cc) i j) := by
  have hguard : x.n * (x.c * (x.h * x.w)) = n * (d * (c * (h * w))) := by
    rw [hn, hc, hh, hw]
    ring
  have hcongr : ∀ a a' b b' e e' f f' : ℕ, a = a' → b = b' → e = e' → f = f' →
      x.data a b e f = x.data a' b' e' f' := by
    intro a a' b b' e e' f f' ha hb he hf
    rw [ha, hb, he, hf]
  refine ⟨_, by rw [Tensor4.view5, if_pos hguard], rfl, rfl, rfl, rfl, rfl,
    fun n' dd cc i j => ⟨_, _, _, _, rfl⟩, ?_⟩
  intro n' dd cc i j hdd hcc hi hj
  have hw0 : 0 < w := by omega
  have hh0 : 0 < h := by omega
  have hhw0 : 0 < h * w := Nat.mul_pos hh0 hw0
  have hdchw0 : 0 < d * c * (h * w) :=
    Nat.mul_pos (Nat.mul_pos (by omega) (by omega)) hhw0
  have hij : i * w + j < h * w := by
    calc i * w + j < i * w + w := by omega
      _ = (i + 1) * w := by ring
      _ ≤ h * w := Nat.mul_le_mul_right w (by omega)
  have hddcc : dd * c + cc < d * c := by
    calc dd * c + cc < dd * c + c := by omega
      _ = (dd + 1) * c := by ring
      _ ≤ d * c := Nat.mul_le_mul_right c (by omega)
  have hrem : (dd * c + cc) * (h * w) + (i * w + j) < d * c * (h * w) := by
    calc (dd * c + cc) * (h * w) + (i * w + j)
        < (dd * c + cc) * (h * w) + h * w := by omega
      _ = (dd * c + cc + 1) * (h * w) := by ring
      _ ≤ d * c * (h * w) := Nat.mul_le_mul_right (h * w) (by omega)
  have e1 : ((((n' * d + dd) * c + cc) * h + i) * w + j) % x.w = j := by
    rw [hw, (by ring : (((n' * d + dd) * c + cc) * h + i) * w + j =
      j + (((n' * d + dd) * c + cc) * h + i) * w),
      Nat.add_mul_mod_self_right, Nat.mod_eq_of_lt hj]
  have ed1 : ((((n' * d + dd) * c + cc) * h + i) * w + j) / x.w =
      ((n' * d + dd) * c + cc) * h + i := by
    rw [hw, (by ring : (((n' * d + dd) * c + cc) * h + i) * w + j =
      j + (((n' * d + dd) * c + cc) * h + i) * w),
      Nat.add_mul_div_right _ _ hw0, Nat.div_eq_of_lt hj, Nat.zero_add]
  have e2 : ((((n' * d + dd) * c + cc) * h + i) * w + j) / x.w % x.h = i := by
    rw [ed1, hh, (by ring : ((n' * d + dd) * c + cc) * h + i =
      i + ((n' * d + dd) * c + cc) * h),
      Nat.add_mul_mod_self_right, Nat.mod_eq_of_lt hi]
  have ed2 : ((((n' * d + dd) * c + cc) * h + i) * w + j) / (x.h * x.w) =
      (n' * d + dd) * c + cc := by
    rw [hh, hw, (by ring : (((n' * d + dd) * c + cc) * h + i) * w + j =
      (i * w + j) + ((n' * d + dd) * c + cc) * (h * w)),
      Nat.add_mul_div_right _ _ hhw0, Nat.div_eq_of_lt hij, Nat.zero_add]
  have e3 : ((((n' * d + dd) * c + cc) * h + i) * w + j) / (x.h * x.w) % x.c =
      dd * c + cc := by
    rw [ed2, hc, (by ring : (n' * d + dd) * c + cc =
      (dd * c + cc) + n' * (d * c)),
      Nat.add_mul_mod_self_right, Nat.mod_eq_of_lt hddcc]
  have e4 : ((((n' * d + dd) * c + cc) * h + i) * w + j) / (x.c * (x.h * x.w)) = n' := by
    rw [hc, hh, hw, (by ring : (((n' * d + dd) * c + cc) * h + i) * w + j =
      ((dd * c + cc) * (h * w) + (i * w + j)) + n' * (d * c * (h * w))),
      (by ring : d * c * (h * w) = (d * c) * (h * w))]
    rw [(by ring : (d * c) * ((h) * (w)) = d * c * (h * w))]
    rw [Nat.add_mul_div_right _ _ hdchw0, Nat.div_eq_of_lt hrem, Nat.zero_add]
  exact hcongr _ _ _ _ _ _ _ _ e4 e3 e2 e1

/-- Evaluation of `GatedPixelCNN.forward`: the input layer and the gated fold
always succeed, so the result is the head output of the accumulated skip sum,
reshaped; the skip sum has the shape of the input layer's skip output. -/
theorem GatedPixelCNN.forward_eval (m : GatedPixelCNN α) (t s : α → α) (x : Tensor4 α) :
    ∃ sk, m.forward t s x = (headApply m s sk).view5 x.n m.out_dim x.c x.h x.w ∧
      sk.n = (skipOut m.input t s x x).n ∧ sk.c = (skipOut m.input t s x x).c ∧
      sk.h = (skipOut m.input t s x x).h ∧ sk.w = (skipOut m.input t s x x).w := by
  obtain ⟨v', h', skipSum, hrun, h1, h2, h3, h4⟩ :=
    runGated_some t s m.gated_layers (vstackOut m.input t s x)
      (hstackOut m.input t s x x) (skipOut m.input t s x x)
  refine ⟨skipSum, ?_, h1, h2, h3, h4⟩
  show (m.input.forward t s x x).bind _ = _
  rw [GatedPixelCNNLayer.forward_eq]
  show (runGated t s m.gated_layers (vstackOut m.input t s x,
    hstackOut m.input t s x x, skipOut m.input t s x x)).bind _ = _
  rw [hrun]
  rfl

/-- Claim C3: for an input of shape `(N, C, H, W)` fed to a `GatedPixelCNN`
constructed with `in_channels = C`, `forward` returns a `(N, out_dim, C, H, W)`
tensor obtained by row-major reshape of the head's `(N, out_dim*C, H, W)`
output, and every entry lies in `[0, 1]` (it is a sigmoid output). -/
theorem claim_C3_forward_probabilities
    (in_channels out_dim n_gated gated_channels head_channels : ℕ)
    (inputWs : LayerWeights ℝ) (gatedWs : ℕ → LayerWeights ℝ)
    (h1w : ℕ → ℕ → ℕ → ℕ → ℝ) (h1b : ℕ → ℝ)
    (h2w : ℕ → ℕ → ℕ → ℕ → ℝ) (h2b : ℕ → ℝ)
    (m : GatedPixelCNN ℝ)
    (hm : GatedPixelCNN.init in_channels out_dim n_gated gated_channels head_channels
      inputWs gatedWs h1w h1b h2w h2b = some m)
    (x : Tensor4 ℝ) (hxc : x.c = in_channels) :
    ∃ t4 t5, m.forward Real.tanh sigmoidR x = some t5 ∧
      t4.view5 x.n out_dim x.c x.h x.w = some t5 ∧
      (∃ sk, t4 = headApply m sigmoidR sk) ∧
      t4.n = x.n ∧ t4.c = out_dim * x.c ∧ t4.h = x.h ∧ t4.w = x.w ∧
      t5.n = x.n ∧ t5.d = out_dim ∧ t5.c = x.c ∧ t5.h = x.h ∧ t5.w = x.w ∧
      (∀ n' dd cc i j, 0 ≤ t5.data n' dd cc i j ∧ t5.data n' dd cc i j ≤ 1) ∧
      (∀ n' dd cc i j, dd < out_dim → cc < x.c → i < x.h → j < x.w →
        t5.data n' dd cc i j = t4.data n' (dd * x.c + cc) i j) := by
  rw [GatedPixelCNN.init_eq] at hm
  injection hm with hm'
  have hmi : m.input = ⟨in_channels, gated_channels, 7, true, inputWs⟩ := by
    rw [← hm']
  have hmo : m.out_dim = out_dim := by
    rw [← hm']
  have hc1 : m.head_conv1 = ⟨gated_channels, head_channels, 1, 1, 0, 0, h1w, h1b⟩ := by
    rw [← hm']
  have hc2 : m.head_conv2 =
      ⟨head_channels, out_dim * in_channels, 1, 1, 0, 0, h2w, h2b⟩ := by
    rw [← hm']
  obtain ⟨sk, hfwd, hskn, hskc, hskh, hskw⟩ :=
    GatedPixelCNN.forward_eval m Real.tanh sigmoidR x
  obtain ⟨han, hac, hah, haw⟩ :=
    skipOut_shape m.input Real.tanh sigmoidR x x (by rw [hmi]; norm_num)
  have hn4 : (headApply m sigmoidR sk).n = x.n := hskn.trans han
  have hc4 : (headApply m sigmoidR sk).c = out_dim * x.c := by
    have hstep : (headApply m sigmoidR sk).c = m.head_conv2.outC := rfl
    rw [hstep, hc2, hxc]
  have hh4 : (headApply m sigmoidR sk).h = x.h := by
    have hstep : (headApply m sigmoidR sk).h =
        sk.h + 2 * m.head_conv1.ph + 1 - m.head_conv1.kh
          + 2 * m.head_conv2.ph + 1 - m.head_conv2.kh := rfl
    rw [hstep, hc1, hc2]
    have := hskh.trans hah
    simp only []
    omega
  have hw4 : (headApply m sigmoidR sk).w = x.w := by
    have hstep : (headApply m sigmoidR sk).w =
        sk.w + 2 * m.head_conv1.pw + 1 - m.head_conv1.kw
          + 2 * m.head_conv2.pw + 1 - m.head_conv2.kw := rfl
    rw [hstep, hc1, hc2]
    have := hskw.trans haw
    simp only []
    omega
  obtain ⟨t5, hview, ht5n, ht5d, ht5c, ht5h, ht5w, hany, hidx⟩ :=
    view5_spec (headApply m sigmoidR sk) x.n out_dim x.c x.h x.w hn4 hc4 hh4 hw4
  have hfwd5 : m.forward Real.tanh sigmoidR x = some t5 := by
    rw [hfwd, hmo]
    exact hview
  refine ⟨headApply m sigmoidR sk, t5, hfwd5, hview, ⟨sk, rfl⟩,
    hn4, hc4, hh4, hw4, ht5n, ht5d, ht5c, ht5h, ht5w, ?_, hidx⟩
  intro n' dd cc i j
  obtain ⟨a, b, e, f, hee⟩ := hany n' dd cc i j
  rw [hee]
  exact ⟨sigmoidR_nonneg _, sigmoidR_le_one _⟩

/-- All-zero weights over `ℤ`. -/
def zerosWZ : LayerWeights ℤ :=
  ⟨fun _ _ _ _ => 0, fun _ => 0, fun _ _ _ _ => 0, fun _ => 0,
   fun _ _ _ _ => 0, fun _ => 0, fun _ _ _ _ => 0, fun _ => 0,
   fun _ _ _ _ => 0, fun _ => 0, fun _ _ _ _ => 0, fun _ => 0,
   fun _ _ _ _ => 0, fun _ => 0⟩

/-- A causal layer with kernel size 3 over `ℤ`, a concrete evaluation point. -/
def layerZ : GatedPixelCNNLayer ℤ := ⟨1, 1, 3, true, zerosWZ⟩

/-- A 1×1×1×2 all-zero feature map. -/
def hinA : Tensor4 ℤ := ⟨1, 1, 1, 2, fun _ _ _ _ => 0⟩

/-- A 1×1×1×2 feature map agreeing with `hinA` at column 0 and differing at
column 1. -/
def hinB : Tensor4 ℤ := ⟨1, 1, 1, 2, fun _ _ _ j => if j = 0 then 0 else 5⟩

/-- A 1×1×2×1 all-zero feature map. -/
def vinA : Tensor4 ℤ := ⟨1, 1, 2, 1, fun _ _ _ _ => 0⟩

/-- A 1×1×2×1 feature map agreeing with `vinA` at row 0 and differing at
row 1. -/
def vinB : Tensor4 ℤ := ⟨1, 1, 2, 1, fun _ _ i _ => if i = 0 then 0 else 7⟩

theorem claim_C1_witness :
    (hstackOut layerZ (fun y => y) (fun y => y) hinA hinA).data 0 0 0 0 =
      (hstackOut layerZ (fun y => y) (fun y => y) hinA hinB).data 0 0 0 0 ∧
    (vstackOut layerZ (fun y => y) (fun y => y) vinA).data 0 0 0 0 =
      (vstackOut layerZ (fun y => y) (fun y => y) vinB).data 0 0 0 0 := by
  obtain ⟨hH, hV⟩ := claim_C1_causality layerZ (fun y => y) (fun y => y) rfl
  refine ⟨hH hinA hinA hinB 0 rfl rfl rfl rfl ?_ 0 0 0,
    hV vinA vinB hinA 0 rfl rfl rfl rfl ?_ 0 0 0⟩
  · intro n ch i j hj
    have hj0 : j = 0 := Nat.le_zero.mp hj
    subst hj0
    rfl
  · intro n ch i j hi
    have hi0 : i = 0 := Nat.le_zero.mp hi
    subst hi0
    rfl

theorem claim_C2_witness :
    (vstackOut layerZ (fun y => y) (fun y => y) hinA).c = 1 ∧
    (hstackOut layerZ (fun y => y) (fun y => y) hinA hinA).c = 1 ∧
    (skipOut layerZ (fun y => y) (fun y => y) hinA hinA).h = 1 := by
  obtain ⟨_, ⟨_, hv, _, _⟩, ⟨_, hh, _, _⟩, ⟨_, _, hs, _⟩⟩ :=
    claim_C2_layer_shapes layerZ (fun y => y) (fun y => y) hinA hinA
      (by decide) rfl rfl rfl rfl rfl
  exact ⟨hv, hh, hs⟩

/-- A 1×2×1×1 feature map (even channel count) over `ℤ`. -/
def xEven : Tensor4 ℤ := ⟨1, 2, 1, 1, fun _ ch _ _ => (ch : ℤ)⟩

theorem claim_C7_witness :
    ∃ y, GatedActivation.forward (fun a => a) (fun a => a) xEven = some y ∧ y.c = 1 := by
  obtain ⟨y, h1, _, h3, _⟩ :=
    claim_C7_gated_activation (fun a => a) (fun a => a) xEven (by decide)
  exact ⟨y, h1, h3.trans (by decide)⟩

/-- All-zero weights over `ℝ`. -/
noncomputable def zerosWR : LayerWeights ℝ :=
  ⟨fun _ _ _ _ => 0, fun _ => 0, fun _ _ _ _ => 0, fun _ => 0,
   fun _ _ _ _ => 0, fun _ => 0, fun _ _ _ _ => 0, fun _ => 0,
   fun _ _ _ _ => 0, fun _ => 0, fun _ _ _ _ => 0, fun _ => 0,
   fun _ _ _ _ => 0, fun _ => 0⟩

/-- The model `GatedPixelCNN.init 1 1 0 1 1` builds from all-zero weights. -/
noncomputable def mC3 : GatedPixelCNN ℝ :=
  ⟨1, 1, 0, 1, 1, ⟨1, 1, 7, true, zerosWR⟩,
   (List.range 0).map fun _ => ⟨1, 1, 3, false, zerosWR⟩,
   ⟨1, 1, 1, 1, 0, 0, fun _ _ _ _ => 0, fun _ => 0⟩,
   ⟨1, 1 * 1, 1, 1, 0, 0, fun _ _ _ _ => 0, fun _ => 0⟩⟩

/-- A 1×1×1×1 all-zero real feature map. -/
noncomputable def xR : Tensor4 ℝ := ⟨1, 1, 1, 1, fun _ _ _ _ => 0⟩

theorem claim_C3_witness :
    ∃ t5, GatedPixelCNN.forward mC3 Real.tanh sigmoidR xR = some t5 ∧
      ∀ n' dd cc i j, 0 ≤ t5.data n' dd cc i j ∧ t5.data n' dd cc i j ≤ 1 := by
  obtain ⟨t4, t5, h1, _, _, _, _, _, _, _, _, _, _, _, hrange, _⟩ :=
    claim_C3_forward_probabilities 1 1 0 1 1 zerosWR (fun _ => zerosWR)
      (fun _ _ _ _ => 0) (fun _ => 0) (fun _ _ _ _ => 0) (fun _ => 0) mC3
      (GatedPixelCNN.init_eq 1 1 0 1 1 zerosWR (fun _ => zerosWR)
        (fun _ _ _ _ => 0) (fun _ => 0) (fun _ _ _ _ => 0) (fun _ => 0)) xR rfl
  exact ⟨t5, h1, hrange⟩

end Model
